import Mathlib

/-!
Verification of the threaded render loop in
src/quick/scenegraph/qsgthreadedrenderloop.cpp.

The development is a shallow embedding of the two classes in that file,
QSGRenderThread (the render worker) and QSGThreadedRenderLoop (the GUI-side
loop coordinator).

Modelling conventions:
- QQuickWindow pointers are window identifiers of type Nat; a null pointer is
  Option.none where the source checks for null.
- QSize is a pair of mathematical integers (the source uses C ints; none of
  the verified properties involve overflow).
- Flags such as gl (the QOpenGLContext pointer), guiIsLocked, shouldExit are
  Bools; the gl pointer is modelled by whether it is non-null.
- Side effects of a handler (mutex operations, condition-variable signals,
  calls into the external scene-graph collaborators, event posts) are
  recorded as an explicit trace, a List RLAction, returned next to the new
  state.  The order of the trace is the textual order of the calls in the
  source.
- The inter-thread protocol (used by the reachability claims) is a step
  relation on a combined two-thread state.  Each source-level event handler
  runs without preemption and every shared-flag access relevant to the
  claims happens either under the mutex or with a single writer, so each
  handler is one atomic step.  The relation lets the GUI thread issue any
  operation whenever it is idle and lets the render thread interleave its
  steps freely, which is a superset of the orderings the real event loops
  produce; the proved invariants therefore cover every real ordering.
-/

set_option autoImplicit false

/-- Window size in pixels, mirroring QSize as used by the render loop. -/
structure QSize where
  width : Int
  height : Int
deriving DecidableEq, Repr

/-- Render-side window record: struct Window of QSGRenderThread. -/
structure RTWindow where
  window : Nat
  size : QSize
deriving DecidableEq, Repr

/-- GUI-side window record: struct Window of QSGThreadedRenderLoop. -/
structure GuiWindow where
  window : Nat
  pendingUpdate : Bool
deriving DecidableEq, Repr

/-- Observable side effects of the render loop code, in source order.  Each
constructor corresponds to one call in qsgthreadedrenderloop.cpp: mutex and
wait-condition operations, calls into the scene-graph collaborators, event
posts, and timer starts. -/
inductive RLAction where
  | lockM
  | unlockM
  | wakeC
  | waitC
  | exitLoop
  | clearPending
  | invalidateGL (window : Option Nat) (inDestructor : Bool)
  | makeCurrent (window : Nat)
  | doneCurrent
  | syncSceneGraph (window : Nat)
  | renderSceneGraph (window : Nat) (size : QSize)
  | swapBuffers (window : Nat)
  | fireFrameSwapped (window : Nat)
  | readFramebuffer (size : QSize)
  | cleanupNodesOnShutdown (window : Nat)
  | sgInvalidate
  | drainDeferredDelete
  | deleteGL
  | createWindow (window : Nat)
  | polishItems (window : Nat)
  | setGuiLocked (value : Bool)
  | postRequestSync
  | postUpdateLater (window : Nat)
  | postAdvanceAnimations
  | postGrab (window : Nat)
  | startTimer (interval : Int)
deriving DecidableEq, Repr

/-- Result of QQuickWindow::grabWindow: either the default-constructed null
QImage or a framebuffer readback of the given size. -/
inductive GrabImage where
  | nullImage
  | captured (size : QSize)
deriving DecidableEq, Repr

/-- Shared state owned by QSGRenderThread.  pendingUpdate is the 2-bit mask
with flags SyncRequest and RepaintRequest, modelled as the two Bools
syncRequest and repaintRequest.  gl is whether the QOpenGLContext pointer is
non-null. -/
structure RTState where
  m_windows : List RTWindow
  gl : Bool
  syncRequest : Bool
  repaintRequest : Bool
  sleeping : Bool
  animationRunning : Bool
  shouldExit : Bool
  animationRequestsPending : Int
deriving DecidableEq, Repr

/-- The windowFor template instantiated at the render-side list: returns the
first record whose window field matches, null otherwise. -/
def windowFor (list : List RTWindow) (window : Nat) : Option RTWindow :=
  list.find? (fun t => t.window == window)

/-- The windowFor template instantiated at the GUI-side list. -/
def windowForGui (list : List GuiWindow) (window : Nat) : Option GuiWindow :=
  list.find? (fun t => t.window == window)

/-- WM_Expose handler body: if the window is already tracked the event is a
no-op, otherwise a record with the supplied size is appended. -/
def handleExpose (ws : List RTWindow) (window : Nat) (size : QSize) : List RTWindow :=
  match windowFor ws window with
  | some _ => ws
  | none => ws ++ [⟨window, size⟩]

/-- WM_Obscure handler body: remove the first matching record (the source
loop breaks after the first hit). -/
def removeWindow : List RTWindow → Nat → List RTWindow
  | [], _ => []
  | t :: ts, w => if t.window = w then ts else t :: removeWindow ts w

/-- In-place size update through the pointer returned by windowFor, as done
by the WM_Resize handler.  When no record matches, windowFor returns null
and the source dereferences it: there is no defined result, hence none. -/
def resizeWindows : List RTWindow → Nat → QSize → Option (List RTWindow)
  | [], _, _ => none
  | t :: ts, w, sz =>
    if t.window = w then some ({ t with size := sz } :: ts)
    else (resizeWindows ts w sz).map (fun rest => t :: rest)

/-- WM_Resize handler (qsgthreadedrenderloop.cpp lines 368-374).  The source
reads `Window *w = windowFor(m_windows, re->window); w->size = re->size;`
with no null check, so a Resize event for an untracked window dereferences a
null pointer; that undefined outcome is the none case.  The handler posts no
wake-up and touches nothing but the matched record, hence the empty trace. -/
def handleResize (ws : List RTWindow) (window : Nat) (size : QSize) :
    Option (List RTWindow × List RLAction) :=
  (resizeWindows ws window size).map (fun ws2 => (ws2, []))

/-- Effective persistence flags computed by the loop at the top of
invalidateOpenGL: OR of isPersistentSceneGraph / isPersistentOpenGLContext
over the GUI-side window list, skipping the requesting window exactly when
inDestructor holds.  First component: persistentSG; second: persistentGL. -/
def persistenceFlags (wm : List GuiWindow) (psg pgl : Nat → Bool)
    (window : Nat) (inDestructor : Bool) : Bool × Bool :=
  wm.foldl
    (fun acc w =>
      if inDestructor = false ∨ w.window ≠ window then
        (acc.1 || psg w.window, acc.2 || pgl w.window)
      else acc)
    (false, false)

/-- QSGRenderThread::invalidateOpenGL (lines 423-474).  Returns whether the
gl context still exists afterwards, next to the trace of teardown calls.
psg and pgl give each window's isPersistentSceneGraph and
isPersistentOpenGLContext answers. -/
def invalidateOpenGL (gl : Bool) (wm : List GuiWindow) (psg pgl : Nat → Bool)
    (window : Option Nat) (inDestructor : Bool) : Bool × List RLAction :=
  if gl = false then (gl, [])
  else
    match window with
    | none => (gl, [])
    | some win =>
      let flags := persistenceFlags wm psg pgl win inDestructor
      let persistentSG := flags.1
      let persistentGL := flags.2
      let cleanupTrace :=
        if persistentSG = false ∨ inDestructor = true then
          [RLAction.cleanupNodesOnShutdown win]
        else []
      if persistentSG then (gl, RLAction.makeCurrent win :: cleanupTrace)
      else
        let invTrace := [RLAction.sgInvalidate, RLAction.drainDeferredDelete, RLAction.doneCurrent]
        if persistentGL = false then
          (false, RLAction.makeCurrent win :: cleanupTrace ++ invTrace ++ [RLAction.deleteGL])
        else
          (gl, RLAction.makeCurrent win :: cleanupTrace ++ invTrace)

/-- WM_TryRelease handler (lines 376-391): take the mutex; when no render-side
windows remain, invalidate the GL context, set shouldExit to whether the
context is now gone, and exit a sleeping nested loop; in every case wake the
condition and release the mutex. -/
def handleTryRelease (rt : RTState) (wm : List GuiWindow) (psg pgl : Nat → Bool)
    (window : Option Nat) (inDestructor : Bool) : RTState × List RLAction :=
  if rt.m_windows.isEmpty then
    let r := invalidateOpenGL rt.gl wm psg pgl window inDestructor
    ({ rt with gl := r.1, shouldExit := !r.1 },
     RLAction.lockM :: RLAction.invalidateGL window inDestructor :: r.2
       ++ (if rt.sleeping then [RLAction.exitLoop] else [])
       ++ [RLAction.wakeC, RLAction.unlockM])
  else
    (rt, [RLAction.lockM, RLAction.wakeC, RLAction.unlockM])

/-- WM_Grab handler (lines 393-415): look the window up, take the mutex; only
when a record was found, bind the context, sync, render at the recorded size
and read the framebuffer back into the result image; in every case wake the
condition once and release the mutex. -/
def handleGrab (rt : RTState) (window : Nat) (image : GrabImage) :
    RTState × GrabImage × List RLAction :=
  match windowFor rt.m_windows window with
  | some w =>
    (rt, GrabImage.captured w.size,
     [RLAction.lockM, RLAction.makeCurrent window, RLAction.syncSceneGraph w.window,
      RLAction.renderSceneGraph window w.size, RLAction.readFramebuffer w.size,
      RLAction.wakeC, RLAction.unlockM])
  | none => (rt, image, [RLAction.lockM, RLAction.wakeC, RLAction.unlockM])

/-- Per-window trace of the loop inside QSGRenderThread::sync: windows whose
size has a zero component are skipped, the others get the context bound and
their scene graph synced. -/
def syncLoopTrace (ws : List RTWindow) : List RLAction :=
  ws.foldr
    (fun w acc =>
      (if w.size.width = 0 ∨ w.size.height = 0 then []
       else [RLAction.makeCurrent w.window, RLAction.syncSceneGraph w.window]) ++ acc)
    []

/-- QSGRenderThread::sync (lines 511-534): lock the mutex, assert guiIsLocked
(covered by the protocol invariant below), clear the whole pendingUpdate
mask, sync every window of non-degenerate size, wake the GUI and unlock. -/
def syncRT (rt : RTState) : RTState × List RLAction :=
  ({ rt with syncRequest := false, repaintRequest := false },
   RLAction.lockM :: RLAction.clearPending :: syncLoopTrace rt.m_windows
     ++ [RLAction.wakeC, RLAction.unlockM])

/-- Per-window trace of the render loop inside syncAndRender: windows whose
renderer is not yet initialized or whose size has a zero component are
skipped, the others are rendered, swapped and notified. -/
def renderLoopTrace (renderer : Nat → Bool) (ws : List RTWindow) : List RLAction :=
  ws.foldr
    (fun w acc =>
      (if renderer w.window = false ∨ w.size.width = 0 ∨ w.size.height = 0 then []
       else [RLAction.makeCurrent w.window, RLAction.renderSceneGraph w.window w.size,
             RLAction.swapBuffers w.window, RLAction.fireFrameSwapped w.window]) ++ acc)
    []

/-- QSGRenderThread::syncAndRender (lines 537-589): possibly post an
AdvanceAnimations request (only when the counter is below 2), run sync when
the SyncRequest flag is set, then render every ready window.  renderer says
whether a window's QQuickWindowPrivate has an initialized renderer. -/
def syncAndRender (rt : RTState) (renderer : Nat → Bool) : RTState × List RLAction :=
  let animStep :=
    if rt.animationRunning = true ∧ rt.animationRequestsPending < 2 then
      ({ rt with animationRequestsPending := rt.animationRequestsPending + 1 },
       [RLAction.postAdvanceAnimations])
    else (rt, [])
  let rt1 := animStep.1
  let syncStep := if rt1.syncRequest then syncRT rt1 else (rt1, [])
  (syncStep.1, animStep.2 ++ syncStep.2 ++ renderLoopTrace renderer syncStep.1.m_windows)

/-- The get_env_int helper (lines 116-123): the parsed integer content of the
environment variable when parsing succeeded, otherwise the default.  The
content argument is some v exactly when QByteArray::toInt succeeded. -/
def get_env_int (content : Option Int) (defaultValue : Int) : Int :=
  match content with
  | some value => value
  | none => defaultValue

/-- Value of m_exhaust_delay as computed in the QSGThreadedRenderLoop
constructor (line 631): get_env_int of QML_EXHAUST_DELAY with default 5. -/
def mExhaustDelay (envQmlExhaustDelay : Option Int) : Int :=
  get_env_int envQmlExhaustDelay 5

/-- QSGThreadedRenderLoop::anyoneShowing (lines 652-660): whether some tracked
window is both visible and exposed.  visible and exposed give each window's
isVisible and isExposed answers. -/
def anyoneShowing (ws : List GuiWindow) (visible exposed : Nat → Bool) : Bool :=
  ws.any (fun w => visible w.window && exposed w.window)

/-- The pendingUpdate-clearing loop of polishAndSync (lines 907-909). -/
def clearPendingUpdates (ws : List GuiWindow) : List GuiWindow :=
  ws.map (fun w => { w with pendingUpdate := false })

/-- The polishing loop of polishAndSync (lines 896-900): polishItems on every
tracked window, in list order. -/
def polishTrace (ws : List GuiWindow) : List RLAction :=
  ws.map (fun w => RLAction.polishItems w.window)

/-- QSGThreadedRenderLoop::polishAndSync (lines 882-931).  Arguments: the
GUI-side window list, the visibility and exposure of each window, and the
value of guiIsLocked at entry.  Returns the window list, the guiIsLocked
flag after the call, and the trace.  When nothing is showing the function
returns before touching any state or the mutex; otherwise it polishes every
window, clears every pendingUpdate flag, and runs the rendezvous: lock,
guiIsLocked := true, post WM_RequestSync, wait, guiIsLocked := false,
unlock. -/
def polishAndSync (ws : List GuiWindow) (visible exposed : Nat → Bool)
    (guiIsLocked : Bool) : List GuiWindow × Bool × List RLAction :=
  if anyoneShowing ws visible exposed = false then (ws, guiIsLocked, [])
  else
    (clearPendingUpdates ws, false,
     polishTrace ws
       ++ [RLAction.lockM, RLAction.setGuiLocked true, RLAction.postRequestSync,
           RLAction.waitC, RLAction.setGuiLocked false, RLAction.unlockM])

/-- The write w->pendingUpdate = true performed through the pointer returned
by windowFor in maybeUpdate; no-op when no record matches. -/
def setPendingUpdate : List GuiWindow → Nat → List GuiWindow
  | [], _ => []
  | t :: ts, w =>
    if t.window = w then { t with pendingUpdate := true } :: ts
    else t :: setPendingUpdate ts w

/-- QSGThreadedRenderLoop::maybeUpdate (lines 813-842).  Arguments: the
GUI-side window list, the current m_update_timer id (0 when not armed), the
m_exhaust_delay value, whether the render thread is running, whether the
caller is on the render thread, whether the animation driver is running, the
timer id a startTimer call would return, and the addressed window.  Returns
the window list, the m_update_timer value, and the trace. -/
def maybeUpdate (ws : List GuiWindow) (updateTimer exhaustDelay : Int)
    (threadRunning onRenderThread animRunning : Bool) (newTimerId : Int)
    (window : Nat) : List GuiWindow × Int × List RLAction :=
  match windowForGui ws window with
  | none => (ws, updateTimer, [])
  | some w =>
    if w.pendingUpdate || !threadRunning then (ws, updateTimer, [])
    else if onRenderThread then (ws, updateTimer, [RLAction.postUpdateLater window])
    else
      let ws2 := setPendingUpdate ws window
      if updateTimer > 0 then (ws2, updateTimer, [])
      else
        (ws2, newTimerId,
         [RLAction.startTimer (if animRunning then exhaustDelay else 0)])

/-- QSGThreadedRenderLoop::grab (lines 992-1016).  Arguments: whether the
render thread is running, whether the window already has a platform handle,
the window, and the image the render-thread Grab handler leaves in the
result buffer.  When the thread is not running the function returns the
default-constructed QImage at once, with no effect. -/
def grab (threadRunning hasHandle : Bool) (window : Nat)
    (rtResult : GrabImage) : GrabImage × List RLAction :=
  if !threadRunning then (GrabImage.nullImage, [])
  else
    (rtResult,
     (if !hasHandle then [RLAction.createWindow window] else [])
       ++ [RLAction.polishItems window, RLAction.lockM, RLAction.postGrab window,
           RLAction.waitC, RLAction.unlockM])

/-- Signed count of mutex acquisitions minus releases along a trace; zero for
a trace that leaves the mutex unheld (wait re-acquires before returning, so
waitC is neutral). -/
def netLock : List RLAction → Int
  | [] => 0
  | RLAction.lockM :: tr => netLock tr + 1
  | RLAction.unlockM :: tr => netLock tr - 1
  | _ :: tr => netLock tr

/-- Recognizer for the condition-variable signal. -/
def isWake : RLAction → Bool
  | RLAction.wakeC => true
  | _ => false

/-- Recognizer for the call into invalidateOpenGL. -/
def isInvCall : RLAction → Bool
  | RLAction.invalidateGL _ _ => true
  | _ => false

/-- Recognizer for the scene-graph runtime invalidation call. -/
def isSgInvalidate : RLAction → Bool
  | RLAction.sgInvalidate => true
  | _ => false

/-- Recognizer for a syncSceneGraph call addressed to the given window. -/
def isSyncSGFor (w : Nat) : RLAction → Bool
  | RLAction.syncSceneGraph w2 => w2 == w
  | _ => false

/-- Recognizer for a renderSceneGraph call addressed to the given window. -/
def isRenderSGFor (w : Nat) : RLAction → Bool
  | RLAction.renderSceneGraph w2 _ => w2 == w
  | _ => false

/-- Recognizer for a swapBuffers call addressed to the given window. -/
def isSwapFor (w : Nat) : RLAction → Bool
  | RLAction.swapBuffers w2 => w2 == w
  | _ => false

/-- Events posted to the render thread (the WM_ queue, GUI to RT direction
plus the RT-internal repaint, which in this source version is a direct call
rather than a posted event). -/
inductive RTEvent where
  | wmExpose (window : Nat) (size : QSize)
  | wmObscure (window : Nat)
  | wmRequestSync
  | wmResize (window : Nat) (size : QSize)
  | wmTryRelease (window : Nat) (inDestructor : Bool)
  | wmGrab (window : Nat)
deriving DecidableEq, Repr

/-- Events posted to the GUI thread. -/
inductive GuiEvent where
  | wmUpdateLater (window : Nat)
  | wmAdvanceAnimations
deriving DecidableEq, Repr

/-- Control position of the GUI thread.  gIdle: running its event loop and
free to start any operation.  gWaitSync, gWaitGrab, gWaitRelease: parked in
waitCondition.wait inside polishAndSync, grab, releaseResources.  gWakeSync,
gWakeGrab, gWakeRelease: signalled, about to re-acquire the mutex and run the
statements after the wait (only the sync path clears guiIsLocked there). -/
inductive GuiPhase where
  | gIdle
  | gWaitSync
  | gWaitGrab
  | gWaitRelease
  | gWakeSync
  | gWakeGrab
  | gWakeRelease
deriving DecidableEq, Repr

/-- Combined state of the two threads and their event queues.  Every
lock-protected region of the source is one atomic step of the relation, so
the mutex itself needs no field: it is free at every step boundary. -/
structure ProtoState where
  guiPhase : GuiPhase
  guiIsLocked : Bool
  syncRequest : Bool
  repaintRequest : Bool
  animationRunning : Bool
  animationRequestsPending : Int
  rtWindows : List RTWindow
  rtQueue : List RTEvent
  guiQueue : List GuiEvent
  glContext : Bool
  shouldExit : Bool
  guiWindows : List GuiWindow
deriving DecidableEq, Repr

/-- Effect of the render thread dispatching the event at the head of its
queue, one source handler per case (QSGRenderThread::event, lines 325-421).
The WM_Resize handler dereferences a null pointer when the window is not
tracked (see handleResize); a crashed process has no further steps, so the
relation continues with the list unchanged there, which only adds states.
The wakeOne calls of the TryRelease and Grab handlers move a waiting GUI
thread to the corresponding wake phase; a signal with nobody waiting is
lost, as for a condition variable. -/
def rtDispatch (psg pgl : Nat → Bool) (s : ProtoState) (e : RTEvent)
    (rest : List RTEvent) : ProtoState :=
  match e with
  | RTEvent.wmExpose w sz =>
    { s with rtQueue := rest, rtWindows := handleExpose s.rtWindows w sz }
  | RTEvent.wmObscure w =>
    { s with rtQueue := rest, rtWindows := removeWindow s.rtWindows w }
  | RTEvent.wmRequestSync =>
    { s with rtQueue := rest,
             syncRequest := if s.rtWindows.isEmpty then s.syncRequest else true }
  | RTEvent.wmResize w sz =>
    { s with rtQueue := rest, rtWindows := (resizeWindows s.rtWindows w sz).getD s.rtWindows }
  | RTEvent.wmTryRelease w d =>
    if s.rtWindows.isEmpty then
      let glNew := (invalidateOpenGL s.glContext s.guiWindows psg pgl (some w) d).1
      { s with rtQueue := rest, glContext := glNew, shouldExit := !glNew,
               guiPhase := if s.guiPhase = GuiPhase.gWaitRelease then GuiPhase.gWakeRelease
                           else s.guiPhase }
    else
      { s with rtQueue := rest,
               guiPhase := if s.guiPhase = GuiPhase.gWaitRelease then GuiPhase.gWakeRelease
                           else s.guiPhase }
  | RTEvent.wmGrab _ =>
    { s with rtQueue := rest,
             guiPhase := if s.guiPhase = GuiPhase.gWaitGrab then GuiPhase.gWakeGrab
                         else s.guiPhase }

/-- Effect of the GUI thread dispatching the event at the head of its queue
(QSGThreadedRenderLoop::event, lines 933-978).  WM_UpdateLater re-runs
maybeUpdate after a window-still-tracked check; its effect on the shared
window list is the pendingUpdate write (timer arming is GUI-local).
WM_AdvanceAnimations decrements animationRequestsPending exactly once. -/
def guiDispatch (s : ProtoState) (e : GuiEvent) (rest : List GuiEvent) : ProtoState :=
  match e with
  | GuiEvent.wmUpdateLater w =>
    { s with guiQueue := rest, guiWindows := setPendingUpdate s.guiWindows w }
  | GuiEvent.wmAdvanceAnimations =>
    { s with guiQueue := rest,
             animationRequestsPending := s.animationRequestsPending - 1 }

/-- One atomic step of either thread.  GUI steps require the GUI thread to be
idle (its event loop only runs then); they over-approximate the real call
sites by allowing any operation whenever idle.  Render-thread steps may
interleave freely, covering both the processEvents batch of the run loop and
the nested event loop.  psg, pgl: per-window persistence answers; visible,
exposed: per-window QWindow state, fixed over a run. -/
inductive Step (psg pgl visible exposed : Nat → Bool) : ProtoState → ProtoState → Prop where
  | gShow (s : ProtoState) (w : Nat) :
      s.guiPhase = GuiPhase.gIdle →
      Step psg pgl visible exposed s
        { s with guiWindows := s.guiWindows ++ [⟨w, false⟩] }
  | gHideRemove (s : ProtoState) (w : Nat) :
      s.guiPhase = GuiPhase.gIdle →
      Step psg pgl visible exposed s
        { s with guiWindows := s.guiWindows.filter (fun t => t.window ≠ w) }
  | gPostExpose (s : ProtoState) (w : Nat) (sz : QSize) :
      s.guiPhase = GuiPhase.gIdle →
      Step psg pgl visible exposed s
        { s with rtQueue := s.rtQueue ++ [RTEvent.wmExpose w sz] }
  | gPostObscure (s : ProtoState) (w : Nat) :
      s.guiPhase = GuiPhase.gIdle →
      Step psg pgl visible exposed s
        { s with rtQueue := s.rtQueue ++ [RTEvent.wmObscure w] }
  | gPostResize (s : ProtoState) (w : Nat) (sz : QSize) :
      s.guiPhase = GuiPhase.gIdle →
      Step psg pgl visible exposed s
        { s with rtQueue := s.rtQueue ++ [RTEvent.wmResize w sz] }
  | gPolishAndSync (s : ProtoState) :
      s.guiPhase = GuiPhase.gIdle →
      anyoneShowing s.guiWindows visible exposed = true →
      Step psg pgl visible exposed s
        { s with guiPhase := GuiPhase.gWaitSync, guiIsLocked := true,
                 guiWindows := clearPendingUpdates s.guiWindows,
                 rtQueue := s.rtQueue ++ [RTEvent.wmRequestSync] }
  | gGrab (s : ProtoState) (w : Nat) :
      s.guiPhase = GuiPhase.gIdle →
      Step psg pgl visible exposed s
        { s with guiPhase := GuiPhase.gWaitGrab,
                 rtQueue := s.rtQueue ++ [RTEvent.wmGrab w] }
  | gRelease (s : ProtoState) (w : Nat) (d : Bool) :
      s.guiPhase = GuiPhase.gIdle →
      s.shouldExit = false →
      Step psg pgl visible exposed s
        { s with guiPhase := GuiPhase.gWaitRelease,
                 rtQueue := s.rtQueue ++ [RTEvent.wmTryRelease w d] }
  | gWakeFromSync (s : ProtoState) :
      s.guiPhase = GuiPhase.gWakeSync →
      Step psg pgl visible exposed s
        { s with guiPhase := GuiPhase.gIdle, guiIsLocked := false }
  | gWakeFromGrab (s : ProtoState) :
      s.guiPhase = GuiPhase.gWakeGrab →
      Step psg pgl visible exposed s { s with guiPhase := GuiPhase.gIdle }
  | gWakeFromRelease (s : ProtoState) :
      s.guiPhase = GuiPhase.gWakeRelease →
      Step psg pgl visible exposed s { s with guiPhase := GuiPhase.gIdle }
  | gEvent (s : ProtoState) (e : GuiEvent) (rest : List GuiEvent) :
      s.guiPhase = GuiPhase.gIdle →
      s.guiQueue = e :: rest →
      Step psg pgl visible exposed s (guiDispatch s e rest)
  | rtEvent (s : ProtoState) (e : RTEvent) (rest : List RTEvent) :
      s.rtQueue = e :: rest →
      Step psg pgl visible exposed s (rtDispatch psg pgl s e rest)
  | rtSync (s : ProtoState) :
      s.rtWindows ≠ [] →
      s.syncRequest = true →
      Step psg pgl visible exposed s
        { s with syncRequest := false, repaintRequest := false,
                 guiPhase := if s.guiPhase = GuiPhase.gWaitSync then GuiPhase.gWakeSync
                             else s.guiPhase }
  | rtPostAnimations (s : ProtoState) :
      s.rtWindows ≠ [] →
      s.animationRunning = true →
      s.animationRequestsPending < 2 →
      Step psg pgl visible exposed s
        { s with animationRequestsPending := s.animationRequestsPending + 1,
                 guiQueue := s.guiQueue ++ [GuiEvent.wmAdvanceAnimations] }
  | rtRepaint (s : ProtoState) :
      Step psg pgl visible exposed s
        { s with repaintRequest := if s.rtWindows.isEmpty then s.repaintRequest else true }
  | animStart (s : ProtoState) :
      Step psg pgl visible exposed s { s with animationRunning := true }
  | animStop (s : ProtoState) :
      Step psg pgl visible exposed s { s with animationRunning := false }

/-- Initial protocol state: no windows anywhere, empty queues, all flags
clear, counter zero. -/
def initState : ProtoState :=
  { guiPhase := GuiPhase.gIdle, guiIsLocked := false, syncRequest := false,
    repaintRequest := false, animationRunning := false,
    animationRequestsPending := 0, rtWindows := [], rtQueue := [],
    guiQueue := [], glContext := false, shouldExit := false, guiWindows := [] }

/-- Reachability from the initial state under the step relation. -/
def Reachable (psg pgl visible exposed : Nat → Bool) (s : ProtoState) : Prop :=
  Relation.ReflTransGen (Step psg pgl visible exposed) initState s

/-- Recognizer for WM_RequestSync events. -/
@[simp] def isReqSyncEv : RTEvent → Bool
  | RTEvent.wmRequestSync => true
  | _ => false

/-- Recognizer for WM_Grab events. -/
@[simp] def isGrabEv : RTEvent → Bool
  | RTEvent.wmGrab _ => true
  | _ => false

/-- Recognizer for WM_TryRelease events. -/
@[simp] def isRelEv : RTEvent → Bool
  | RTEvent.wmTryRelease _ _ => true
  | _ => false

/-- Recognizer for WM_AdvanceAnimations events. -/
@[simp] def isAnimEv : GuiEvent → Bool
  | GuiEvent.wmAdvanceAnimations => true
  | _ => false

/-- Number of WM_RequestSync events in the render-thread queue. -/
def countReq (q : List RTEvent) : Nat := q.countP (fun e => isReqSyncEv e)

/-- Number of WM_Grab events in the render-thread queue. -/
def countGrab (q : List RTEvent) : Nat := q.countP (fun e => isGrabEv e)

/-- Number of WM_TryRelease events in the render-thread queue. -/
def countRel (q : List RTEvent) : Nat := q.countP (fun e => isRelEv e)

/-- Number of in-flight WM_AdvanceAnimations events in the GUI queue. -/
def countAnim (q : List GuiEvent) : Nat := q.countP (fun e => isAnimEv e)

@[simp] theorem countReq_nil : countReq [] = 0 := rfl

@[simp] theorem countReq_cons (e : RTEvent) (q : List RTEvent) :
    countReq (e :: q) = countReq q + (if isReqSyncEv e then 1 else 0) :=
  List.countP_cons _ _ _

@[simp] theorem countReq_append (a b : List RTEvent) :
    countReq (a ++ b) = countReq a + countReq b :=
  List.countP_append _ _ _

@[simp] theorem countGrab_nil : countGrab [] = 0 := rfl

@[simp] theorem countGrab_cons (e : RTEvent) (q : List RTEvent) :
    countGrab (e :: q) = countGrab q + (if isGrabEv e then 1 else 0) :=
  List.countP_cons _ _ _

@[simp] theorem countGrab_append (a b : List RTEvent) :
    countGrab (a ++ b) = countGrab a + countGrab b :=
  List.countP_append _ _ _

@[simp] theorem countRel_nil : countRel [] = 0 := rfl

@[simp] theorem countRel_cons (e : RTEvent) (q : List RTEvent) :
    countRel (e :: q) = countRel q + (if isRelEv e then 1 else 0) :=
  List.countP_cons _ _ _

@[simp] theorem countRel_append (a b : List RTEvent) :
    countRel (a ++ b) = countRel a + countRel b :=
  List.countP_append _ _ _

@[simp] theorem countAnim_nil : countAnim [] = 0 := rfl

@[simp] theorem countAnim_cons (e : GuiEvent) (q : List GuiEvent) :
    countAnim (e :: q) = countAnim q + (if isAnimEv e then 1 else 0) :=
  List.countP_cons _ _ _

@[simp] theorem countAnim_append (a b : List GuiEvent) :
    countAnim (a ++ b) = countAnim a + countAnim b :=
  List.countP_append _ _ _

/-- Inductive invariant of the protocol.  The rendezvous fields say: each of
the three blocking operations has at most one event in flight, an in-flight
rendezvous event pins the GUI thread in the matching wait phase, guiIsLocked
holds exactly on the RequestSync path between locking and the post-wake
cleanup, and a SyncRequest flag can only be up while the GUI still waits.
The animation fields tie animationRequestsPending to the number of in-flight
WM_AdvanceAnimations events and bound both by 2. -/
structure ProtoInv (s : ProtoState) : Prop where
  lockedIff : s.guiIsLocked = true ↔
    (s.guiPhase = GuiPhase.gWaitSync ∨ s.guiPhase = GuiPhase.gWakeSync)
  syncPhase : s.syncRequest = true → s.guiPhase = GuiPhase.gWaitSync
  reqPhase : 1 ≤ countReq s.rtQueue → s.guiPhase = GuiPhase.gWaitSync
  grabPhase : 1 ≤ countGrab s.rtQueue → s.guiPhase = GuiPhase.gWaitGrab
  relPhase : 1 ≤ countRel s.rtQueue → s.guiPhase = GuiPhase.gWaitRelease
  syncNoReq : s.syncRequest = true → countReq s.rtQueue = 0
  reqOne : countReq s.rtQueue ≤ 1
  grabOne : countGrab s.rtQueue ≤ 1
  relOne : countRel s.rtQueue ≤ 1
  animEq : s.animationRequestsPending = (countAnim s.guiQueue : Int)
  animLe : countAnim s.guiQueue ≤ 2

theorem protoInv_init : ProtoInv initState := by
  constructor <;> simp [initState, countReq, countGrab, countRel, countAnim]

theorem protoInv_step {psg pgl visible exposed : Nat → Bool} {s s2 : ProtoState}
    (hstep : Step psg pgl visible exposed s s2) (inv : ProtoInv s) : ProtoInv s2 := by
  obtain ⟨hA, hB, hC, hD, hE, hF, hG, hH, hI, hJ, hK⟩ := inv
  cases hstep with
  | gShow w hphase =>
    exact ⟨hA, hB, hC, hD, hE, hF, hG, hH, hI, hJ, hK⟩
  | gHideRemove w hphase =>
    exact ⟨hA, hB, hC, hD, hE, hF, hG, hH, hI, hJ, hK⟩
  | gPostExpose w sz hphase =>
    exact ⟨hA, hB, by simpa using hC, by simpa using hD, by simpa using hE,
           by simpa using hF, by simpa using hG, by simpa using hH,
           by simpa using hI, hJ, hK⟩
  | gPostObscure w hphase =>
    exact ⟨hA, hB, by simpa using hC, by simpa using hD, by simpa using hE,
           by simpa using hF, by simpa using hG, by simpa using hH,
           by simpa using hI, hJ, hK⟩
  | gPostResize w sz hphase =>
    exact ⟨hA, hB, by simpa using hC, by simpa using hD, by simpa using hE,
           by simpa using hF, by simpa using hG, by simpa using hH,
           by simpa using hI, hJ, hK⟩
  | gPolishAndSync hphase hshow =>
    have hsr : s.syncRequest = false := by
      cases hb : s.syncRequest with
      | false => rfl
      | true =>
        have h2 := hB hb; rw [hphase] at h2; exact absurd h2 (by decide)
    have hreq0 : countReq s.rtQueue = 0 := by
      cases Nat.eq_zero_or_pos (countReq s.rtQueue) with
      | inl h => exact h
      | inr h =>
        have h2 := hC h; rw [hphase] at h2; exact absurd h2 (by decide)
    have hgrab0 : countGrab s.rtQueue = 0 := by
      cases Nat.eq_zero_or_pos (countGrab s.rtQueue) with
      | inl h => exact h
      | inr h =>
        have h2 := hD h; rw [hphase] at h2; exact absurd h2 (by decide)
    have hrel0 : countRel s.rtQueue = 0 := by
      cases Nat.eq_zero_or_pos (countRel s.rtQueue) with
      | inl h => exact h
      | inr h =>
        have h2 := hE h; rw [hphase] at h2; exact absurd h2 (by decide)
    refine ⟨?_, ?_, ?_, ?_, ?_, ?_, ?_, ?_, ?_, hJ, hK⟩
    · simp
    · intro _; rfl
    · intro _; rfl
    · intro h; exact absurd h (by simp [hgrab0])
    · intro h; exact absurd h (by simp [hrel0])
    · intro h; exact absurd h (by simp [hsr])
    · simp [hreq0]
    · simpa using hH
    · simpa using hI
  | gGrab w hphase =>
    have hlock : s.guiIsLocked = false := by
      cases hb : s.guiIsLocked with
      | false => rfl
      | true =>
        rcases hA.mp hb with h2 | h2 <;>
          (rw [hphase] at h2; exact absurd h2 (by decide))
    have hsr : s.syncRequest = false := by
      cases hb : s.syncRequest with
      | false => rfl
      | true =>
        have h2 := hB hb; rw [hphase] at h2; exact absurd h2 (by decide)
    have hreq0 : countReq s.rtQueue = 0 := by
      cases Nat.eq_zero_or_pos (countReq s.rtQueue) with
      | inl h => exact h
      | inr h =>
        have h2 := hC h; rw [hphase] at h2; exact absurd h2 (by decide)
    have hgrab0 : countGrab s.rtQueue = 0 := by
      cases Nat.eq_zero_or_pos (countGrab s.rtQueue) with
      | inl h => exact h
      | inr h =>
        have h2 := hD h; rw [hphase] at h2; exact absurd h2 (by decide)
    have hrel0 : countRel s.rtQueue = 0 := by
      cases Nat.eq_zero_or_pos (countRel s.rtQueue) with
      | inl h => exact h
      | inr h =>
        have h2 := hE h; rw [hphase] at h2; exact absurd h2 (by decide)
    refine ⟨?_, ?_, ?_, ?_, ?_, ?_, ?_, ?_, ?_, hJ, hK⟩
    · simp [hlock]
    · intro h; exact absurd h (by simp [hsr])
    · intro h; exact absurd h (by simp [hreq0])
    · intro _; rfl
    · intro h; exact absurd h (by simp [hrel0])
    · intro h; exact absurd h (by simp [hsr])
    · simpa using hG
    · simp [hgrab0]
    · simpa using hI
  | gRelease w d hphase hexit =>
    have hlock : s.guiIsLocked = false := by
      cases hb : s.guiIsLocked with
      | false => rfl
      | true =>
        rcases hA.mp hb with h2 | h2 <;>
          (rw [hphase] at h2; exact absurd h2 (by decide))
    have hsr : s.syncRequest = false := by
      cases hb : s.syncRequest with
      | false => rfl
      | true =>
        have h2 := hB hb; rw [hphase] at h2; exact absurd h2 (by decide)
    have hreq0 : countReq s.rtQueue = 0 := by
      cases Nat.eq_zero_or_pos (countReq s.rtQueue) with
      | inl h => exact h
      | inr h =>
        have h2 := hC h; rw [hphase] at h2; exact absurd h2 (by decide)
    have hgrab0 : countGrab s.rtQueue = 0 := by
      cases Nat.eq_zero_or_pos (countGrab s.rtQueue) with
      | inl h => exact h
      | inr h =>
        have h2 := hD h; rw [hphase] at h2; exact absurd h2 (by decide)
    have hrel0 : countRel s.rtQueue = 0 := by
      cases Nat.eq_zero_or_pos (countRel s.rtQueue) with
      | inl h => exact h
      | inr h =>
        have h2 := hE h; rw [hphase] at h2; exact absurd h2 (by decide)
    refine ⟨?_, ?_, ?_, ?_, ?_, ?_, ?_, ?_, ?_, hJ, hK⟩
    · simp [hlock]
    · intro h; exact absurd h (by simp [hsr])
    · intro h; exact absurd h (by simp [hreq0])
    · intro h; exact absurd h (by simp [hgrab0])
    · intro _; rfl
    · intro h; exact absurd h (by simp [hsr])
    · simpa using hG
    · simpa using hH
    · simp [hrel0]
  | gWakeFromSync hphase =>
    have hsr : s.syncRequest = false := by
      cases hb : s.syncRequest with
      | false => rfl
      | true =>
        have h2 := hB hb; rw [hphase] at h2; exact absurd h2 (by decide)
    have hreq0 : countReq s.rtQueue = 0 := by
      cases Nat.eq_zero_or_pos (countReq s.rtQueue) with
      | inl h => exact h
      | inr h =>
        have h2 := hC h; rw [hphase] at h2; exact absurd h2 (by decide)
    have hgrab0 : countGrab s.rtQueue = 0 := by
      cases Nat.eq_zero_or_pos (countGrab s.rtQueue) with
      | inl h => exact h
      | inr h =>
        have h2 := hD h; rw [hphase] at h2; exact absurd h2 (by decide)
    have hrel0 : countRel s.rtQueue = 0 := by
      cases Nat.eq_zero_or_pos (countRel s.rtQueue) with
      | inl h => exact h
      | inr h =>
        have h2 := hE h; rw [hphase] at h2; exact absurd h2 (by decide)
    refine ⟨?_, ?_, ?_, ?_, ?_, ?_, hG, hH, hI, hJ, hK⟩
    · simp
    · intro h; exact absurd h (by simp [hsr])
    · intro h; exact absurd h (by simp [hreq0])
    · intro h; exact absurd h (by simp [hgrab0])
    · intro h; exact absurd h (by simp [hrel0])
    · intro h; exact absurd h (by simp [hsr])
  | gWakeFromGrab hphase =>
    have hlock : s.guiIsLocked = false := by
      cases hb : s.guiIsLocked with
      | false => rfl
      | true =>
        rcases hA.mp hb with h2 | h2 <;>
          (rw [hphase] at h2; exact absurd h2 (by decide))
    have hsr : s.syncRequest = false := by
      cases hb : s.syncRequest with
      | false => rfl
      | true =>
        have h2 := hB hb; rw [hphase] at h2; exact absurd h2 (by decide)
    have hreq0 : countReq s.rtQueue = 0 := by
      cases Nat.eq_zero_or_pos (countReq s.rtQueue) with
      | inl h => exact h
      | inr h =>
        have h2 := hC h; rw [hphase] at h2; exact absurd h2 (by decide)
    have hgrab0 : countGrab s.rtQueue = 0 := by
      cases Nat.eq_zero_or_pos (countGrab s.rtQueue) with
      | inl h => exact h
      | inr h =>
        have h2 := hD h; rw [hphase] at h2; exact absurd h2 (by decide)
    have hrel0 : countRel s.rtQueue = 0 := by
      cases Nat.eq_zero_or_pos (countRel s.rtQueue) with
      | inl h => exact h
      | inr h =>
        have h2 := hE h; rw [hphase] at h2; exact absurd h2 (by decide)
    refine ⟨?_, ?_, ?_, ?_, ?_, ?_, hG, hH, hI, hJ, hK⟩
    · simp [hlock]
    · intro h; exact absurd h (by simp [hsr])
    · intro h; exact absurd h (by simp [hreq0])
    · intro h; exact absurd h (by simp [hgrab0])
    · intro h; exact absurd h (by simp [hrel0])
    · intro h; exact absurd h (by simp [hsr])
  | gWakeFromRelease hphase =>
    have hlock : s.guiIsLocked = false := by
      cases hb : s.guiIsLocked with
      | false => rfl
      | true =>
        rcases hA.mp hb with h2 | h2 <;>
          (rw [hphase] at h2; exact absurd h2 (by decide))
    have hsr : s.syncRequest = false := by
      cases hb : s.syncRequest with
      | false => rfl
      | true =>
        have h2 := hB hb; rw [hphase] at h2; exact absurd h2 (by decide)
    have hreq0 : countReq s.rtQueue = 0 := by
      cases Nat.eq_zero_or_pos (countReq s.rtQueue) with
      | inl h => exact h
      | inr h =>
        have h2 := hC h; rw [hphase] at h2; exact absurd h2 (by decide)
    have hgrab0 : countGrab s.rtQueue = 0 := by
      cases Nat.eq_zero_or_pos (countGrab s.rtQueue) with
      | inl h => exact h
      | inr h =>
        have h2 := hD h; rw [hphase] at h2; exact absurd h2 (by decide)
    have hrel0 : countRel s.rtQueue = 0 := by
      cases Nat.eq_zero_or_pos (countRel s.rtQueue) with
      | inl h => exact h
      | inr h =>
        have h2 := hE h; rw [hphase] at h2; exact absurd h2 (by decide)
    refine ⟨?_, ?_, ?_, ?_, ?_, ?_, hG, hH, hI, hJ, hK⟩
    · simp [hlock]
    · intro h; exact absurd h (by simp [hsr])
    · intro h; exact absurd h (by simp [hreq0])
    · intro h; exact absurd h (by simp [hgrab0])
    · intro h; exact absurd h (by simp [hrel0])
    · intro h; exact absurd h (by simp [hsr])
  | gEvent e rest hphase hq =>
    have hJ2 := hJ; rw [hq] at hJ2
    have hK2 := hK; rw [hq] at hK2
    cases e with
    | wmUpdateLater w =>
      exact ⟨hA, hB, hC, hD, hE, hF, hG, hH, hI, by simpa using hJ2,
             by simpa using hK2⟩
    | wmAdvanceAnimations =>
      have h3 : countAnim (GuiEvent.wmAdvanceAnimations :: rest) = countAnim rest + 1 := by
        simp
      refine ⟨hA, hB, hC, hD, hE, hF, hG, hH, hI, ?_, ?_⟩
      · show s.animationRequestsPending - 1 = (countAnim rest : Int)
        rw [h3] at hJ2
        push_cast at hJ2
        omega
      · show countAnim rest ≤ 2
        rw [h3] at hK2
        omega
  | rtEvent e rest hq =>
    have hC2 := hC; have hD2 := hD; have hE2 := hE; have hF2 := hF
    have hG2 := hG; have hH2 := hH; have hI2 := hI
    rw [hq] at hC2 hD2 hE2 hF2 hG2 hH2 hI2
    cases e with
    | wmExpose w sz =>
      exact ⟨hA, hB, by simpa using hC2, by simpa using hD2, by simpa using hE2,
             by simpa using hF2, by simpa using hG2, by simpa using hH2,
             by simpa using hI2, hJ, hK⟩
    | wmObscure w =>
      exact ⟨hA, hB, by simpa using hC2, by simpa using hD2, by simpa using hE2,
             by simpa using hF2, by simpa using hG2, by simpa using hH2,
             by simpa using hI2, hJ, hK⟩
    | wmResize w sz =>
      exact ⟨hA, hB, by simpa using hC2, by simpa using hD2, by simpa using hE2,
             by simpa using hF2, by simpa using hG2, by simpa using hH2,
             by simpa using hI2, hJ, hK⟩
    | wmRequestSync =>
      have hphase : s.guiPhase = GuiPhase.gWaitSync := hC2 (by simp)
      have hrest0 : countReq rest = 0 := by
        simp at hG2; omega
      dsimp only [rtDispatch]
      refine ⟨hA, ?_, ?_, ?_, ?_, ?_, ?_, ?_, ?_, hJ, hK⟩
      · intro _; exact hphase
      · intro _; exact hphase
      · simpa using hD2
      · simpa using hE2
      · intro _; exact hrest0
      · show countReq rest ≤ 1
        simp [hrest0]
      · simpa using hH2
      · simpa using hI2
    | wmTryRelease w d =>
      have hphase : s.guiPhase = GuiPhase.gWaitRelease := hE2 (by simp)
      have hrel0 : countRel rest = 0 := by
        simp at hI2; omega
      have hlock : s.guiIsLocked = false := by
        cases hb : s.guiIsLocked with
        | false => rfl
        | true =>
          rcases hA.mp hb with h2 | h2 <;>
            (rw [hphase] at h2; exact absurd h2 (by decide))
      dsimp only [rtDispatch]
      split
      all_goals
        refine ⟨?_, ?_, ?_, ?_, ?_, ?_, ?_, ?_, ?_, hJ, hK⟩
        · simp [hphase, hlock]
        · intro h; exact absurd (hB h) (by simp [hphase])
        · intro h; exact absurd (hC2 (by simpa using h)) (by simp [hphase])
        · intro h; exact absurd (hD2 (by simpa using h)) (by simp [hphase])
        · intro h; exact absurd h (by simp [hrel0])
        · intro h; exact absurd (hB h) (by simp [hphase])
        · simpa using hG2
        · simpa using hH2
        · simp [hrel0]
    | wmGrab w =>
      have hphase : s.guiPhase = GuiPhase.gWaitGrab := hD2 (by simp)
      have hgrab0 : countGrab rest = 0 := by
        simp at hH2; omega
      have hlock : s.guiIsLocked = false := by
        cases hb : s.guiIsLocked with
        | false => rfl
        | true =>
          rcases hA.mp hb with h2 | h2 <;>
            (rw [hphase] at h2; exact absurd h2 (by decide))
      dsimp only [rtDispatch]
      refine ⟨?_, ?_, ?_, ?_, ?_, ?_, ?_, ?_, ?_, hJ, hK⟩
      · simp [hphase, hlock]
      · intro h; exact absurd (hB h) (by simp [hphase])
      · intro h; exact absurd (hC2 (by simpa using h)) (by simp [hphase])
      · intro h; exact absurd h (by simp [hgrab0])
      · intro h; exact absurd (hE2 (by simpa using h)) (by simp [hphase])
      · intro h; exact absurd (hB h) (by simp [hphase])
      · simpa using hG2
      · show countGrab rest ≤ 1
        simp [hgrab0]
      · simpa using hI2
  | rtSync hwin hsr =>
    have hphase := hB hsr
    have hlockT : s.guiIsLocked = true := hA.mpr (Or.inl hphase)
    have hreq0 := hF hsr
    refine ⟨?_, ?_, ?_, ?_, ?_, ?_, hG, hH, hI, hJ, hK⟩
    · simp [hphase, hlockT]
    · intro h; exact absurd h (by simp)
    · intro h; exact absurd h (by simp [hreq0])
    · intro h; exact absurd (hD h) (by simp [hphase])
    · intro h; exact absurd (hE h) (by simp [hphase])
    · intro h; exact absurd h (by simp)
  | rtPostAnimations hwin hanim hlt =>
    have h3 : countAnim (s.guiQueue ++ [GuiEvent.wmAdvanceAnimations]) =
        countAnim s.guiQueue + 1 := by simp
    refine ⟨hA, hB, hC, hD, hE, hF, hG, hH, hI, ?_, ?_⟩
    · show s.animationRequestsPending + 1 =
        (countAnim (s.guiQueue ++ [GuiEvent.wmAdvanceAnimations]) : Int)
      rw [h3]
      push_cast
      omega
    · show countAnim (s.guiQueue ++ [GuiEvent.wmAdvanceAnimations]) ≤ 2
      rw [h3]
      omega
  | rtRepaint =>
    exact ⟨hA, hB, hC, hD, hE, hF, hG, hH, hI, hJ, hK⟩
  | animStart =>
    exact ⟨hA, hB, hC, hD, hE, hF, hG, hH, hI, hJ, hK⟩
  | animStop =>
    exact ⟨hA, hB, hC, hD, hE, hF, hG, hH, hI, hJ, hK⟩

theorem protoInv_reachable {psg pgl visible exposed : Nat → Bool} {s : ProtoState}
    (h : Reachable psg pgl visible exposed s) : ProtoInv s := by
  induction h with
  | refl => exact protoInv_init
  | tail hsteps hstep ih => exact protoInv_step hstep ih

theorem netLock_append (a b : List RLAction) :
    netLock (a ++ b) = netLock a + netLock b := by
  induction a with
  | nil => simp [netLock]
  | cons x xs ih =>
    cases x <;> simp [netLock, ih] <;> omega

theorem netLock_polishTrace (ws : List GuiWindow) :
    netLock (polishTrace ws) = 0 := by
  induction ws with
  | nil => rfl
  | cons x xs ih => simpa [polishTrace, netLock] using ih

theorem invalidateOpenGL_mutexFree (gl : Bool) (wm : List GuiWindow)
    (psg pgl : Nat → Bool) (window : Option Nat) (d : Bool) :
    (invalidateOpenGL gl wm psg pgl window d).2.countP (fun a => isWake a) = 0
    ∧ (invalidateOpenGL gl wm psg pgl window d).2.countP (fun a => isInvCall a) = 0 := by
  rcases window with _ | win
  · cases gl <;> simp [invalidateOpenGL]
  · cases gl
    · simp [invalidateOpenGL]
    · cases hsg : (persistenceFlags wm psg pgl win d).1 <;>
      cases hgl2 : (persistenceFlags wm psg pgl win d).2 <;>
      cases d <;>
      simp [invalidateOpenGL, hsg, hgl2, isWake, isInvCall,
        List.countP_cons, List.countP_nil, List.countP_append]

theorem syncLoopTrace_no_syncSG (ws : List RTWindow) (w : Nat)
    (hall : ∀ x ∈ ws, x.window = w → x.size.width = 0 ∨ x.size.height = 0) :
    (syncLoopTrace ws).countP (fun a => isSyncSGFor w a) = 0 := by
  induction ws with
  | nil => rfl
  | cons x xs ih =>
    have hx := hall x (List.mem_cons_self x xs)
    have hxs : ∀ y ∈ xs, y.window = w → y.size.width = 0 ∨ y.size.height = 0 :=
      fun y hy => hall y (List.mem_cons_of_mem x hy)
    show ((if x.size.width = 0 ∨ x.size.height = 0 then []
           else [RLAction.makeCurrent x.window, RLAction.syncSceneGraph x.window])
           ++ syncLoopTrace xs).countP (fun a => isSyncSGFor w a) = 0
    rw [List.countP_append, ih hxs]
    by_cases hzero : x.size.width = 0 ∨ x.size.height = 0
    · simp [hzero]
    · have hne : x.window ≠ w := fun he => hzero (hx he)
      simp [hzero, isSyncSGFor, List.countP_cons, hne]

theorem syncLoopTrace_no_renderSG (ws : List RTWindow) (w : Nat) :
    (syncLoopTrace ws).countP (fun a => isRenderSGFor w a) = 0 := by
  induction ws with
  | nil => rfl
  | cons x xs ih =>
    show ((if x.size.width = 0 ∨ x.size.height = 0 then []
           else [RLAction.makeCurrent x.window, RLAction.syncSceneGraph x.window])
           ++ syncLoopTrace xs).countP (fun a => isRenderSGFor w a) = 0
    rw [List.countP_append, ih]
    by_cases hzero : x.size.width = 0 ∨ x.size.height = 0
    · simp [hzero]
    · simp [hzero, isRenderSGFor, List.countP_cons]

theorem syncLoopTrace_no_swap (ws : List RTWindow) (w : Nat) :
    (syncLoopTrace ws).countP (fun a => isSwapFor w a) = 0 := by
  induction ws with
  | nil => rfl
  | cons x xs ih =>
    show ((if x.size.width = 0 ∨ x.size.height = 0 then []
           else [RLAction.makeCurrent x.window, RLAction.syncSceneGraph x.window])
           ++ syncLoopTrace xs).countP (fun a => isSwapFor w a) = 0
    rw [List.countP_append, ih]
    by_cases hzero : x.size.width = 0 ∨ x.size.height = 0
    · simp [hzero]
    · simp [hzero, isSwapFor, List.countP_cons]

theorem renderLoopTrace_no_renderSG (renderer : Nat → Bool) (ws : List RTWindow) (w : Nat)
    (hall : ∀ x ∈ ws, x.window = w → x.size.width = 0 ∨ x.size.height = 0) :
    (renderLoopTrace renderer ws).countP (fun a => isRenderSGFor w a) = 0 := by
  induction ws with
  | nil => rfl
  | cons x xs ih =>
    have hx := hall x (List.mem_cons_self x xs)
    have hxs : ∀ y ∈ xs, y.window = w → y.size.width = 0 ∨ y.size.height = 0 :=
      fun y hy => hall y (List.mem_cons_of_mem x hy)
    show ((if renderer x.window = false ∨ x.size.width = 0 ∨ x.size.height = 0 then []
           else [RLAction.makeCurrent x.window, RLAction.renderSceneGraph x.window x.size,
                 RLAction.swapBuffers x.window, RLAction.fireFrameSwapped x.window])
           ++ renderLoopTrace renderer xs).countP (fun a => isRenderSGFor w a) = 0
    rw [List.countP_append, ih hxs]
    by_cases hskip : renderer x.window = false ∨ x.size.width = 0 ∨ x.size.height = 0
    · simp [hskip]
    · have hne : x.window ≠ w := by
        intro he
        exact hskip (Or.inr (hx he))
      simp [hskip, isRenderSGFor, List.countP_cons, hne]

theorem renderLoopTrace_no_swap (renderer : Nat → Bool) (ws : List RTWindow) (w : Nat)
    (hall : ∀ x ∈ ws, x.window = w → x.size.width = 0 ∨ x.size.height = 0) :
    (renderLoopTrace renderer ws).countP (fun a => isSwapFor w a) = 0 := by
  induction ws with
  | nil => rfl
  | cons x xs ih =>
    have hx := hall x (List.mem_cons_self x xs)
    have hxs : ∀ y ∈ xs, y.window = w → y.size.width = 0 ∨ y.size.height = 0 :=
      fun y hy => hall y (List.mem_cons_of_mem x hy)
    show ((if renderer x.window = false ∨ x.size.width = 0 ∨ x.size.height = 0 then []
           else [RLAction.makeCurrent x.window, RLAction.renderSceneGraph x.window x.size,
                 RLAction.swapBuffers x.window, RLAction.fireFrameSwapped x.window])
           ++ renderLoopTrace renderer xs).countP (fun a => isSwapFor w a) = 0
    rw [List.countP_append, ih hxs]
    by_cases hskip : renderer x.window = false ∨ x.size.width = 0 ∨ x.size.height = 0
    · simp [hskip]
    · have hne : x.window ≠ w := by
        intro he
        exact hskip (Or.inr (hx he))
      simp [hskip, isSwapFor, List.countP_cons, hne]

theorem getLast?_wake_unlock (l : List RLAction) :
    (l ++ [RLAction.wakeC, RLAction.unlockM]).getLast? = some RLAction.unlockM := by
  rw [List.getLast?_append_cons]
  rfl

theorem syncAndRender_m_windows (rt : RTState) (renderer : Nat → Bool) :
    (syncAndRender rt renderer).1.m_windows = rt.m_windows := by
  simp only [syncAndRender, syncRT]
  split <;> split <;> rfl

theorem syncAndRender_trace (rt : RTState) (renderer : Nat → Bool) :
    (syncAndRender rt renderer).2
      = (if rt.animationRunning = true ∧ rt.animationRequestsPending < 2 then
           [RLAction.postAdvanceAnimations] else [])
        ++ (if rt.syncRequest = true then (syncRT rt).2 else [])
        ++ renderLoopTrace renderer rt.m_windows := by
  simp only [syncAndRender, syncRT]
  split <;> split <;> simp_all

theorem countP_sandwich_gen (p : RLAction → Bool) (M : List RLAction) (n : Nat)
    (hp1 : p RLAction.lockM = false)
    (hM : M.countP (fun a => p a) = n) :
    (RLAction.lockM :: (M ++ [RLAction.wakeC, RLAction.unlockM])).countP
      (fun a => p a)
      = n + (if p RLAction.wakeC then 1 else 0) + (if p RLAction.unlockM then 1 else 0) := by
  rw [List.countP_cons, List.countP_append, hM, List.countP_cons, List.countP_cons,
    List.countP_nil]
  simp [hp1]
  omega

theorem last_sandwich (M : List RLAction) :
    (RLAction.lockM :: (M ++ [RLAction.wakeC, RLAction.unlockM])).getLast?
      = some RLAction.unlockM := by
  have h : RLAction.lockM :: (M ++ [RLAction.wakeC, RLAction.unlockM])
      = (RLAction.lockM :: M) ++ [RLAction.wakeC, RLAction.unlockM] := by simp
  rw [h, List.getLast?_append_cons]
  rfl

/-- Middle section of the WM_TryRelease handler trace, between the mutex
acquisition and the final signal-and-unlock pair: the teardown calls when the
render-side window list is empty, nothing otherwise. -/
def tryReleaseMiddle (rt : RTState) (wm : List GuiWindow) (psg pgl : Nat → Bool)
    (window : Option Nat) (inDestructor : Bool) : List RLAction :=
  if rt.m_windows.isEmpty then
    RLAction.invalidateGL window inDestructor ::
      ((invalidateOpenGL rt.gl wm psg pgl window inDestructor).2
        ++ (if rt.sleeping then [RLAction.exitLoop] else []))
  else []

theorem handleTryRelease_trace (rt : RTState) (wm : List GuiWindow)
    (psg pgl : Nat → Bool) (window : Option Nat) (inDestructor : Bool) :
    (handleTryRelease rt wm psg pgl window inDestructor).2
      = RLAction.lockM :: (tryReleaseMiddle rt wm psg pgl window inDestructor
          ++ [RLAction.wakeC, RLAction.unlockM]) := by
  unfold handleTryRelease tryReleaseMiddle
  cases hemp : rt.m_windows.isEmpty <;> cases hs : rt.sleeping <;> simp [hemp, hs]

theorem tryReleaseMiddle_no_wake (rt : RTState) (wm : List GuiWindow)
    (psg pgl : Nat → Bool) (window : Option Nat) (inDestructor : Bool) :
    (tryReleaseMiddle rt wm psg pgl window inDestructor).countP (fun a => isWake a) = 0 := by
  have hwake0 := (invalidateOpenGL_mutexFree rt.gl wm psg pgl window inDestructor).1
  have e1 : isWake (RLAction.invalidateGL window inDestructor) = false := rfl
  have e2 : isWake RLAction.exitLoop = false := rfl
  unfold tryReleaseMiddle
  cases hemp : rt.m_windows.isEmpty <;> cases hs : rt.sleeping <;>
    simp only [if_true, if_false, ite_true, ite_false, List.countP_cons,
      List.countP_append, List.countP_nil, e1, e2, hwake0, Bool.false_eq_true]

theorem tryReleaseMiddle_invCall (rt : RTState) (wm : List GuiWindow)
    (psg pgl : Nat → Bool) (window : Option Nat) (inDestructor : Bool) :
    (tryReleaseMiddle rt wm psg pgl window inDestructor).countP (fun a => isInvCall a)
      = (if rt.m_windows.isEmpty then 1 else 0) := by
  have hinv0 := (invalidateOpenGL_mutexFree rt.gl wm psg pgl window inDestructor).2
  have e1 : isInvCall (RLAction.invalidateGL window inDestructor) = true := rfl
  have e2 : isInvCall RLAction.exitLoop = false := rfl
  unfold tryReleaseMiddle
  cases hemp : rt.m_windows.isEmpty <;> cases hs : rt.sleeping <;>
    simp only [if_true, if_false, ite_true, ite_false, List.countP_cons,
      List.countP_append, List.countP_nil, e1, e2, hinv0, Bool.false_eq_true]

/-- Claim C1: the WM_TryRelease handler acquires the mutex first, signals the
condition variable exactly once, and releases the mutex as its final action,
whether or not teardown happens; it calls invalidateOpenGL exactly when the
render-side window list is empty, and only then writes should_exit, setting
it to true iff the graphics context is gone afterwards (otherwise should_exit
is left unchanged). -/
theorem claim_C1_tryRelease_rendezvous (rt : RTState) (wm : List GuiWindow)
    (psg pgl : Nat → Bool) (window : Option Nat) (inDestructor : Bool) :
    (handleTryRelease rt wm psg pgl window inDestructor).2
        = RLAction.lockM :: (tryReleaseMiddle rt wm psg pgl window inDestructor
            ++ [RLAction.wakeC, RLAction.unlockM])
    ∧ (handleTryRelease rt wm psg pgl window inDestructor).2.countP (fun a => isWake a) = 1
    ∧ (handleTryRelease rt wm psg pgl window inDestructor).2.head? = some RLAction.lockM
    ∧ (handleTryRelease rt wm psg pgl window inDestructor).2.getLast? = some RLAction.unlockM
    ∧ (handleTryRelease rt wm psg pgl window inDestructor).2.countP (fun a => isInvCall a)
        = (if rt.m_windows.isEmpty then 1 else 0)
    ∧ (handleTryRelease rt wm psg pgl window inDestructor).1.shouldExit
        = (if rt.m_windows.isEmpty
           then !(handleTryRelease rt wm psg pgl window inDestructor).1.gl
           else rt.shouldExit) := by
  have htr := handleTryRelease_trace rt wm psg pgl window inDestructor
  refine ⟨htr, ?_, ?_, ?_, ?_, ?_⟩
  · rw [htr]
    have := countP_sandwich_gen (fun a => isWake a)
      (tryReleaseMiddle rt wm psg pgl window inDestructor) 0 rfl
      (tryReleaseMiddle_no_wake rt wm psg pgl window inDestructor)
    simpa [isWake] using this
  · rw [htr]; rfl
  · rw [htr]; exact last_sandwich _
  · rw [htr]
    have := countP_sandwich_gen (fun a => isInvCall a)
      (tryReleaseMiddle rt wm psg pgl window inDestructor)
      (if rt.m_windows.isEmpty then 1 else 0) rfl
      (tryReleaseMiddle_invCall rt wm psg pgl window inDestructor)
    simpa [isInvCall] using this
  · unfold handleTryRelease
    cases hemp : rt.m_windows.isEmpty <;> simp [hemp]

/-- Claim C2 (code bug): the spec requires the WM_Resize handler to treat an
untracked window as a harmless no-op, but the source dereferences the null
result of windowFor, so the handler has no defined result there (first
conjunct).  When a record does match, the handler only rewrites that record
size, leaves every other record alone and emits no wake-up (second
conjunct). -/
theorem claim_C2_resize_missing_window :
    handleResize [] 1 ⟨100, 100⟩ = none
    ∧ handleResize [⟨1, ⟨5, 5⟩⟩, ⟨2, ⟨3, 3⟩⟩] 1 ⟨100, 100⟩
        = some ([⟨1, ⟨100, 100⟩⟩, ⟨2, ⟨3, 3⟩⟩], []) := by
  constructor <;> rfl

/-- Claim C3: polishAndSync, entered with guiIsLocked clear (the only state
the idle GUI thread can call it in, by the protocol invariant): when no
tracked window is visible and exposed it returns at once, with the window
list untouched and an empty trace, so the mutex is never taken; otherwise it
polishes every tracked window, clears every pendingUpdate flag, then locks
the mutex, sets guiIsLocked, posts RequestSync and waits; in both cases the
returned guiIsLocked is false and the net mutex balance of the trace is
zero, so the GUI thread does not hold the mutex after the call. -/
theorem claim_C3_polishAndSync (ws : List GuiWindow) (visible exposed : Nat → Bool) :
    polishAndSync ws visible exposed false
      = (if anyoneShowing ws visible exposed = true then
           (clearPendingUpdates ws, false,
            polishTrace ws
              ++ [RLAction.lockM, RLAction.setGuiLocked true, RLAction.postRequestSync,
                  RLAction.waitC, RLAction.setGuiLocked false, RLAction.unlockM])
         else (ws, false, []))
    ∧ (polishAndSync ws visible exposed false).2.1 = false
    ∧ netLock (polishAndSync ws visible exposed false).2.2 = 0 := by
  cases h : anyoneShowing ws visible exposed with
  | false =>
    refine ⟨?_, ?_, ?_⟩ <;> simp [polishAndSync, h, netLock]
  | true =>
    refine ⟨?_, ?_, ?_⟩
    · simp [polishAndSync, h]
    · simp [polishAndSync, h]
    · simp only [polishAndSync, h, Bool.true_eq_false, ite_false, if_false]
      rw [netLock_append, netLock_polishTrace]
      rfl

/-- Claim C5, counterexample to the claim as stated: with a single remaining
window that keeps a persistent scene graph but not a persistent context, the
teardown returns early and the context survives, even though no remaining
window reports a persistent graphics context. -/
theorem claim_C5_counterexample :
    ¬(((invalidateOpenGL true [⟨7, false⟩] (fun _ => true) (fun _ => false)
          (some 7) false).1 = true)
      ↔ ((persistenceFlags [⟨7, false⟩] (fun _ => true) (fun _ => false) 7 false).2
          = true)) := by
  decide

/-- Claim C5, amended: after a teardown pass of invalidateOpenGL on a live
context, the graphics context survives iff at least one remaining window
(excluding the requesting one when in_destructor) reports a persistent
graphics context OR a persistent scene graph; the scene-graph runtime is
invalidated exactly when no remaining window keeps a persistent scene
graph. -/
theorem claim_C5_persistence_or (wm : List GuiWindow) (psg pgl : Nat → Bool)
    (w : Nat) (d : Bool) :
    (invalidateOpenGL true wm psg pgl (some w) d).1
      = ((persistenceFlags wm psg pgl w d).1 || (persistenceFlags wm psg pgl w d).2)
    ∧ (invalidateOpenGL true wm psg pgl (some w) d).2.countP (fun a => isSgInvalidate a)
      = (if (persistenceFlags wm psg pgl w d).1 then 0 else 1) := by
  cases hsg : (persistenceFlags wm psg pgl w d).1 <;>
  cases hgl2 : (persistenceFlags wm psg pgl w d).2 <;>
  cases d <;>
  simp [invalidateOpenGL, hsg, hgl2, isSgInvalidate,
    List.countP_cons, List.countP_nil, List.countP_append]

/-- Claim C9: grab invoked while the render thread is not running returns the
default-constructed image at once, with an empty trace: no surface creation,
no polish, no event post, no mutex acquisition, no condition wait. -/
theorem claim_C9_grab_not_running (hasHandle : Bool) (window : Nat)
    (rtResult : GrabImage) :
    grab false hasHandle window rtResult = (GrabImage.nullImage, []) := by
  rfl

/-- Claim C10: the WM_Grab handler for a window with no render-side record
leaves the state and the result image untouched and performs no sync, render
or readback; its whole trace is lock, a single wake of the condition
variable, unlock, so the waiting GUI thread is always released. -/
theorem claim_C10_grab_missing_window (rt : RTState) (window : Nat)
    (image : GrabImage) (h : windowFor rt.m_windows window = none) :
    handleGrab rt window image
      = (rt, image, [RLAction.lockM, RLAction.wakeC, RLAction.unlockM]) := by
  unfold handleGrab
  rw [h]

/-- Witness for claim C10 at a concrete input: the empty render-side list. -/
theorem claim_C10_grab_missing_window_witness :
    handleGrab ⟨[], true, false, false, false, false, false, 0⟩ 5 GrabImage.nullImage
      = (⟨[], true, false, false, false, false, false, 0⟩, GrabImage.nullImage,
         [RLAction.lockM, RLAction.wakeC, RLAction.unlockM]) :=
  claim_C10_grab_missing_window ⟨[], true, false, false, false, false, false, 0⟩ 5
    GrabImage.nullImage rfl

theorem syncRT_countP_zero (rt : RTState) (p : RLAction → Bool)
    (h1 : p RLAction.lockM = false) (h2 : p RLAction.clearPending = false)
    (h3 : p RLAction.wakeC = false) (h4 : p RLAction.unlockM = false)
    (hloop : (syncLoopTrace rt.m_windows).countP (fun a => p a) = 0) :
    (syncRT rt).2.countP (fun a => p a) = 0 := by
  simp only [syncRT, List.countP_cons, List.countP_append, List.countP_nil,
    h1, h2, h3, h4, hloop, Bool.false_eq_true, if_false, ite_false]

theorem syncAndRender_countP_zero (rt : RTState) (renderer : Nat → Bool)
    (p : RLAction → Bool)
    (hpost : p RLAction.postAdvanceAnimations = false)
    (hsync : (syncRT rt).2.countP (fun a => p a) = 0)
    (hrender : (renderLoopTrace renderer rt.m_windows).countP (fun a => p a) = 0) :
    (syncAndRender rt renderer).2.countP (fun a => p a) = 0 := by
  rw [syncAndRender_trace, List.countP_append, List.countP_append, hrender]
  have hA : ((if rt.animationRunning = true ∧ rt.animationRequestsPending < 2 then
      [RLAction.postAdvanceAnimations] else []) : List RLAction).countP
        (fun a => p a) = 0 := by
    split
    · simp [List.countP_cons, hpost]
    · rfl
  have hB : ((if rt.syncRequest = true then (syncRT rt).2 else []) : List RLAction).countP
      (fun a => p a) = 0 := by
    split
    · exact hsync
    · rfl
  rw [hA, hB]

/-- Claim C6: a render-side window record whose size has a zero component is
not handed to the syncSceneGraph hook by sync, gets no renderSceneGraph or
swapBuffers call from the render phase, and stays in the window list (sync
and syncAndRender leave m_windows unchanged).  The last hypothesis reflects
the one-record-per-window invariant of the list: every record carrying this
window handle has the degenerate size. -/
theorem claim_C6_zero_size_skipped (rt : RTState) (renderer : Nat → Bool)
    (w : RTWindow)
    (hmem : w ∈ rt.m_windows)
    (hdeg : w.size.width = 0 ∨ w.size.height = 0)
    (hall : ∀ x ∈ rt.m_windows, x.window = w.window →
      x.size.width = 0 ∨ x.size.height = 0) :
    (syncRT rt).2.countP (fun a => isSyncSGFor w.window a) = 0
    ∧ (syncAndRender rt renderer).2.countP (fun a => isRenderSGFor w.window a) = 0
    ∧ (syncAndRender rt renderer).2.countP (fun a => isSwapFor w.window a) = 0
    ∧ (syncRT rt).1.m_windows = rt.m_windows
    ∧ (syncAndRender rt renderer).1.m_windows = rt.m_windows := by
  refine ⟨?_, ?_, ?_, rfl, syncAndRender_m_windows rt renderer⟩
  · exact syncRT_countP_zero rt (isSyncSGFor w.window) rfl rfl rfl rfl
      (syncLoopTrace_no_syncSG rt.m_windows w.window hall)
  · exact syncAndRender_countP_zero rt renderer (isRenderSGFor w.window) rfl
      (syncRT_countP_zero rt (isRenderSGFor w.window) rfl rfl rfl rfl
        (syncLoopTrace_no_renderSG rt.m_windows w.window))
      (renderLoopTrace_no_renderSG renderer rt.m_windows w.window hall)
  · exact syncAndRender_countP_zero rt renderer (isSwapFor w.window) rfl
      (syncRT_countP_zero rt (isSwapFor w.window) rfl rfl rfl rfl
        (syncLoopTrace_no_swap rt.m_windows w.window))
      (renderLoopTrace_no_swap renderer rt.m_windows w.window hall)

/-- Witness for claim C6 at a concrete input: one tracked window of width
zero, with its renderer initialized and a sync request pending. -/
theorem claim_C6_zero_size_skipped_witness :
    (syncRT ⟨[⟨1, ⟨0, 5⟩⟩], true, true, false, false, false, false, 0⟩).2.countP
        (fun a => isSyncSGFor 1 a) = 0
    ∧ (syncAndRender ⟨[⟨1, ⟨0, 5⟩⟩], true, true, false, false, false, false, 0⟩
        (fun _ => true)).2.countP (fun a => isRenderSGFor 1 a) = 0
    ∧ (syncAndRender ⟨[⟨1, ⟨0, 5⟩⟩], true, true, false, false, false, false, 0⟩
        (fun _ => true)).2.countP (fun a => isSwapFor 1 a) = 0
    ∧ (syncRT ⟨[⟨1, ⟨0, 5⟩⟩], true, true, false, false, false, false, 0⟩).1.m_windows
        = [⟨1, ⟨0, 5⟩⟩]
    ∧ (syncAndRender ⟨[⟨1, ⟨0, 5⟩⟩], true, true, false, false, false, false, 0⟩
        (fun _ => true)).1.m_windows = [⟨1, ⟨0, 5⟩⟩] :=
  claim_C6_zero_size_skipped ⟨[⟨1, ⟨0, 5⟩⟩], true, true, false, false, false, false, 0⟩
    (fun _ => true) ⟨1, ⟨0, 5⟩⟩ (by decide) (by decide) (by decide)

/-- Whether the record maybeUpdate finds for the window already has its
pendingUpdate flag set; false when no record matches. -/
def hasPending (ws : List GuiWindow) (window : Nat) : Bool :=
  match windowForGui ws window with
  | some w => w.pendingUpdate
  | none => false

/-- Claim C7: maybeUpdate is a no-op when the window has no GUI-side record,
when the record already has pendingUpdate set, or when the render thread is
not running; called on the render thread it only posts UpdateLater;
otherwise it sets the pendingUpdate flag and, only when the update timer is
not already armed, starts it with interval exhaust_delay when animations run
and 0 otherwise, where exhaust_delay comes from QML_EXHAUST_DELAY with
default 5. -/
theorem claim_C7_maybeUpdate (ws : List GuiWindow) (updateTimer exhaustDelay : Int)
    (threadRunning onRenderThread animRunning : Bool) (newTimerId : Int)
    (window : Nat) (v : Int) :
    ((windowForGui ws window).isSome = false →
      maybeUpdate ws updateTimer exhaustDelay threadRunning onRenderThread animRunning
        newTimerId window = (ws, updateTimer, []))
    ∧ (hasPending ws window = true →
      maybeUpdate ws updateTimer exhaustDelay threadRunning onRenderThread animRunning
        newTimerId window = (ws, updateTimer, []))
    ∧ (threadRunning = false →
      maybeUpdate ws updateTimer exhaustDelay threadRunning onRenderThread animRunning
        newTimerId window = (ws, updateTimer, []))
    ∧ ((windowForGui ws window).isSome = true → hasPending ws window = false →
       threadRunning = true → onRenderThread = true →
      maybeUpdate ws updateTimer exhaustDelay threadRunning onRenderThread animRunning
        newTimerId window = (ws, updateTimer, [RLAction.postUpdateLater window]))
    ∧ ((windowForGui ws window).isSome = true → hasPending ws window = false →
       threadRunning = true → onRenderThread = false → updateTimer > 0 →
      maybeUpdate ws updateTimer exhaustDelay threadRunning onRenderThread animRunning
        newTimerId window = (setPendingUpdate ws window, updateTimer, []))
    ∧ ((windowForGui ws window).isSome = true → hasPending ws window = false →
       threadRunning = true → onRenderThread = false → ¬(updateTimer > 0) →
      maybeUpdate ws updateTimer exhaustDelay threadRunning onRenderThread animRunning
        newTimerId window
        = (setPendingUpdate ws window, newTimerId,
           [RLAction.startTimer (if animRunning then exhaustDelay else 0)]))
    ∧ mExhaustDelay none = 5
    ∧ mExhaustDelay (some v) = v := by
  refine ⟨?_, ?_, ?_, ?_, ?_, ?_, rfl, rfl⟩
  · intro h
    rcases hw : windowForGui ws window with _ | w
    · simp [maybeUpdate, hw]
    · rw [hw] at h; simp at h
  · intro h
    rcases hw : windowForGui ws window with _ | w
    · simp [maybeUpdate, hw]
    · unfold hasPending at h
      rw [hw] at h
      simp only [] at h
      simp [maybeUpdate, hw, h]
  · intro h
    rcases hw : windowForGui ws window with _ | w
    · simp [maybeUpdate, hw]
    · subst h
      simp [maybeUpdate, hw]
  · intro h1 h2 h3 h4
    rcases hw : windowForGui ws window with _ | w
    · rw [hw] at h1; simp at h1
    · unfold hasPending at h2
      rw [hw] at h2
      simp only [] at h2
      subst h3; subst h4
      simp [maybeUpdate, hw, h2]
  · intro h1 h2 h3 h4 h5
    rcases hw : windowForGui ws window with _ | w
    · rw [hw] at h1; simp at h1
    · unfold hasPending at h2
      rw [hw] at h2
      simp only [] at h2
      subst h3; subst h4
      simp [maybeUpdate, hw, h2, h5]
  · intro h1 h2 h3 h4 h5
    rcases hw : windowForGui ws window with _ | w
    · rw [hw] at h1; simp at h1
    · unfold hasPending at h2
      rw [hw] at h2
      simp only [] at h2
      subst h3; subst h4
      simp [maybeUpdate, hw, h2, h5]

/-- Witness for claim C7 at a concrete input: one clean record, render thread
running, caller on the GUI thread, timer not armed, animations running and an
exhaust delay of 7, so the timer is started with interval 7. -/
theorem claim_C7_maybeUpdate_witness :
    maybeUpdate [⟨1, false⟩] 0 7 true false true 3 1
      = ([⟨1, true⟩], 3, [RLAction.startTimer 7]) := by
  have h := claim_C7_maybeUpdate [⟨1, false⟩] 0 7 true false true 3 1 0
  exact h.2.2.2.2.2.1 (by decide) (by decide) rfl rfl (by decide)

/-- Claim C4: in every reachable protocol state in which the render worker
can run sync (window list non-empty and SyncRequest up), guiIsLocked is true,
so the assertion at the top of QSGRenderThread::sync never fires; and sync
itself, on any render-thread state, clears the whole pendingUpdate mask
(both SyncRequest and RepaintRequest) with the clear placed after the mutex
acquisition and before the condition signal and the unlock. -/
theorem claim_C4_sync_precondition (psg pgl visible exposed : Nat → Bool)
    (s : ProtoState) (rt : RTState)
    (hreach : Reachable psg pgl visible exposed s)
    (hwin : s.rtWindows ≠ [])
    (hsync : s.syncRequest = true) :
    s.guiIsLocked = true
    ∧ (syncRT rt).1.syncRequest = false
    ∧ (syncRT rt).1.repaintRequest = false
    ∧ (syncRT rt).2 = RLAction.lockM :: RLAction.clearPending ::
        (syncLoopTrace rt.m_windows ++ [RLAction.wakeC, RLAction.unlockM]) := by
  have inv := protoInv_reachable hreach
  exact ⟨inv.lockedIff.mpr (Or.inl (inv.syncPhase hsync)), rfl, rfl, rfl⟩

/-- Witness for claim C4: a concrete reachable state with a window exposed
and a sync request pending, reached by show, expose, the render thread
adding the window, polishAndSync posting RequestSync, and the render thread
processing it. -/
theorem claim_C4_sync_precondition_witness :
    ({ guiPhase := GuiPhase.gWaitSync, guiIsLocked := true, syncRequest := true,
       repaintRequest := false, animationRunning := false,
       animationRequestsPending := 0, rtWindows := [⟨1, ⟨4, 4⟩⟩], rtQueue := [],
       guiQueue := [], glContext := false, shouldExit := false,
       guiWindows := [⟨1, false⟩] } : ProtoState).guiIsLocked = true
    ∧ (syncRT ⟨[⟨1, ⟨4, 4⟩⟩], true, true, false, false, false, false, 0⟩).1.syncRequest
        = false
    ∧ (syncRT ⟨[⟨1, ⟨4, 4⟩⟩], true, true, false, false, false, false, 0⟩).1.repaintRequest
        = false
    ∧ (syncRT ⟨[⟨1, ⟨4, 4⟩⟩], true, true, false, false, false, false, 0⟩).2
        = RLAction.lockM :: RLAction.clearPending ::
          (syncLoopTrace [⟨1, ⟨4, 4⟩⟩] ++ [RLAction.wakeC, RLAction.unlockM]) := by
  refine claim_C4_sync_precondition (fun _ => false) (fun _ => false) (fun _ => true)
    (fun _ => true) _ ⟨[⟨1, ⟨4, 4⟩⟩], true, true, false, false, false, false, 0⟩
    ?_ ?_ ?_
  · exact Relation.ReflTransGen.tail
      (Relation.ReflTransGen.tail
        (Relation.ReflTransGen.tail
          (Relation.ReflTransGen.tail
            (Relation.ReflTransGen.tail Relation.ReflTransGen.refl
              (Step.gShow initState 1 rfl))
            (Step.gPostExpose _ 1 ⟨4, 4⟩ rfl))
          (Step.rtEvent _ (RTEvent.wmExpose 1 ⟨4, 4⟩) [] rfl))
        (Step.gPolishAndSync _ rfl (by decide)))
      (Step.rtEvent _ RTEvent.wmRequestSync [] rfl)
  · decide
  · rfl

/-- Claim C8: in every reachable protocol state the animation-request counter
equals the number of in-flight WM_AdvanceAnimations events and both are at
most 2: the render worker only increments and posts below 2 and the GUI
handler decrements once per delivered event. -/
theorem claim_C8_animation_backpressure (psg pgl visible exposed : Nat → Bool)
    (s : ProtoState) (hreach : Reachable psg pgl visible exposed s) :
    s.animationRequestsPending ≤ 2
    ∧ s.animationRequestsPending = (countAnim s.guiQueue : Int)
    ∧ countAnim s.guiQueue ≤ 2 := by
  have inv := protoInv_reachable hreach
  refine ⟨?_, inv.animEq, inv.animLe⟩
  rw [inv.animEq]
  exact_mod_cast inv.animLe

/-- Witness for claim C8 at the initial state. -/
theorem claim_C8_animation_backpressure_witness :
    initState.animationRequestsPending ≤ 2
    ∧ initState.animationRequestsPending = (countAnim initState.guiQueue : Int)
    ∧ countAnim initState.guiQueue ≤ 2 :=
  claim_C8_animation_backpressure (fun _ => false) (fun _ => false) (fun _ => false)
    (fun _ => false) initState Relation.ReflTransGen.refl
